import Mathlib

/-!
# Verification of the MediCare backend (`server.js`)

Shallow embedding of the MediCare appointment-booking backend.  The repository
ships several single-file variants of the same server; the claims reference the
two variants contained in `src/server.js`:

* the *primary* variant (lines 1–397): Express + Mongoose + Zod, handlers
  `POST /api/auth/register`, `POST /api/auth/login`, `POST /api/auth/refresh`,
  `GET /api/doctors`, `POST /api/appointments`,
  `PATCH /api/appointments/:id/cancel`, `GET /api/admin/users`, and seeding;
* the *second* variant (lines 398–744), whose definitions carry a `V2` suffix
  here: its Zod schemas, `generateTokens`, and the register / login / refresh /
  doctors / book-appointment routes.

Modelling conventions:

* The MongoDB collections are lists of records inside a `DB` structure;
  `findOne` / `findById` become `List.find?`, `create` appends, `save` after a
  field mutation maps the updated record over the list.
* `bcrypt.hash(p, 10)` is modelled by the executable one-way encoding
  `bcryptHash` (the random salt is abstracted away; what matters for the
  claims is that the stored string is never the plaintext and that
  `bcrypt.compare` verifies exactly the original password).
* A signed JWT is a record of its claims plus the secret that signed it;
  `jwt.verify` succeeds iff the verifying secret equals the signing secret.
  Expiry windows are real-time behaviour and are abstracted: a token in the
  model is "unexpired"; validity is signature validity.
* Mongo's `$regex` with option `i` is modelled by a small regex interpreter
  (`parseRegex` / `matchAnywhere`) covering the constructs the claims exercise:
  literal characters, `.`, and grouping parentheses.  Unsupported
  metacharacters yield a parse error, exactly like an invalid pattern does, so
  no theorem silently treats them as literals.
* Dates/ids are strings, matching the JSON payloads and `ObjectId.toString()`
  comparisons in the source.
-/

namespace MediCare

/-! ## Credential model (bcryptjs) -/

/-- Model of `bcrypt.hash(p, 10)`: an executable one-way encoding.  The random
salt of real bcrypt is abstracted; the `"$2b$10$"` prefix mirrors the bcrypt
format marker and makes the hash provably distinct from every plaintext. -/
def bcryptHash (p : String) : String := "$2b$10$" ++ p

/-- Model of `bcrypt.compare(p, h)`: verification succeeds exactly when `h`
is the hash of `p`. -/
def bcryptCompare (p h : String) : Bool := h == bcryptHash p

/-! ## JWT model (jsonwebtoken) -/

/-- A signed token: its payload claims (`sub` = the `id` claim, `role` when the
payload carries one) together with the secret that signed it.  The second
variant's refresh tokens are signed with `\x7b id \x7d` only, hence
`role : Option String`. -/
structure Jwt where
  sub : String
  role : Option String
  secret : String
deriving DecidableEq, Repr

/-- `jwt.sign(payload, secret)`. -/
def jwtSign (sub : String) (role : Option String) (secret : String) : Jwt :=
  ⟨sub, role, secret⟩

/-- `jwt.verify(token, secret)`: yields the payload claims iff the secret
matches the signing secret (signature validity; expiry is abstracted). -/
def jwtVerify (t : Jwt) (secret : String) : Option (String × Option String) :=
  if t.secret == secret then some (t.sub, t.role) else none

/-- `JWT_SECRET` default of the primary variant. -/
def accessSecret : String := "supersecret_access"

/-- `JWT_REFRESH_SECRET` default of the primary variant. -/
def refreshSecret : String := "supersecret_refresh"

/-- `JWT_SECRET` default of the second variant. -/
def accessSecretV2 : String := "your-super-secret-jwt-key-change-in-prod"

/-- `JWT_REFRESH_SECRET` default of the second variant. -/
def refreshSecretV2 : String := "refresh-secret-change-in-prod"

/-- ASCII lowercasing, character by character: the model of the
`lowercase: true` setter that Mongoose applies to the email path on save. -/
def lowerStr (s : String) : String := ⟨s.toList.map Char.toLower⟩

/-! ## Data model (Mongoose schemas) -/

/-- The `User` schema: name, email (stored lowercased), phone, password
(the bcrypt hash), role (`"patient"` or `"admin"`, default `"patient"`).
`joinDate`/`isActive` carry no claim content and are omitted. -/
structure UserRec where
  id : String
  name : String
  email : String
  phone : String
  password : String
  role : String
deriving DecidableEq, Repr

/-- The `Doctor` schema.  The numeric `rating`/`reviews` fields are
floating-point display data touched by no claim and are omitted. -/
structure DoctorRec where
  id : String
  name : String
  specialty : String
  location : String
  availability : String
  fee : String
  image : String
deriving DecidableEq, Repr

/-- The `status` enum of the `Appointment` schema. -/
inductive ApptStatus
  | pending
  | confirmed
  | cancelled
deriving DecidableEq, Repr

/-- The `Appointment` schema, including the denormalized `doctorName`,
`specialty` and `patientName` snapshot fields. -/
structure AppointmentRec where
  id : String
  doctor : String
  doctorName : String
  specialty : String
  patient : String
  patientName : String
  date : String
  time : String
  symptoms : String
  phone : String
  status : ApptStatus
deriving DecidableEq, Repr

/-- The persistent state: the user, doctor and appointment collections plus a
fresh-id counter standing in for ObjectId generation.  Feedback records are
touched by no claim. -/
structure DB where
  users : List UserRec
  doctors : List DoctorRec
  appointments : List AppointmentRec
  nextId : Nat
deriving DecidableEq, Repr

/-- `User.findOne(\x7b email \x7d)`. -/
def findUserByEmail (db : DB) (e : String) : Option UserRec :=
  db.users.find? (fun u => u.email == e)

/-- `User.findById(id)`. -/
def findUserById (db : DB) (i : String) : Option UserRec :=
  db.users.find? (fun u => u.id == i)

/-- `Doctor.findById(id)`. -/
def findDoctorById (db : DB) (i : String) : Option DoctorRec :=
  db.doctors.find? (fun d => d.id == i)

/-- `Appointment.findById(id)`. -/
def findApptById (db : DB) (i : String) : Option AppointmentRec :=
  db.appointments.find? (fun a => a.id == i)

/-! ## Zod format checkers -/

/-- Simplified executable model of Zod's `z.string().email()` check (the exact
Zod email regex is large; every claim uses the email check only as an opaque
pass/fail gate, so a representative well-formedness test suffices). -/
def emailFmt (s : String) : Bool :=
  s.toList.count '@' == 1 && s.toList.head? != some '@' && s.toList.getLast? != some '@'

/-- The date regex shared by both variants:
matches a string of shape `dddd-dd-dd` with `d` a decimal digit. -/
def dateFmt (s : String) : Bool :=
  match s.toList with
  | [y1, y2, y3, y4, '-', m1, m2, '-', d1, d2] =>
    y1.isDigit && y2.isDigit && y3.isDigit && y4.isDigit &&
    m1.isDigit && m2.isDigit && d1.isDigit && d2.isDigit
  | _ => false

/-- The second variant's 24-hour time regex: one or two hour digits
(`0`–`23`), a colon, then minutes `00`–`59`. -/
def timeFmt (s : String) : Bool :=
  match s.toList with
  | [h, ':', m1, m2] =>
    h.isDigit && ('0' ≤ m1 && m1 ≤ '5') && m2.isDigit
  | [h1, h2, ':', m1, m2] =>
    (((h1 == '0' || h1 == '1') && h2.isDigit) || (h1 == '2' && ('0' ≤ h2 && h2 ≤ '3'))) &&
    ('0' ≤ m1 && m1 ≤ '5') && m2.isDigit
  | _ => false

/-- A character admitted by the second variant's phone regex character class:
digit, `+`, `-`, or whitespace. -/
def phoneChar (c : Char) : Bool :=
  c.isDigit || c == '+' || c == '-' || c.isWhitespace

/-- The second variant's phone regex: 10 to 15 characters, each a digit,
plus sign, hyphen, or whitespace. -/
def phoneFmt (s : String) : Bool :=
  s.toList.all phoneChar && 10 ≤ s.length && s.length ≤ 15

/-! ## Regex model for the doctor-name `$regex` search

`GET /api/doctors` feeds the raw `search` query parameter to Mongo as
`\x7b $regex: search, $options: 'i' \x7d`.  The interpreter below covers the
constructs the claims exercise — literal characters, the `.` wildcard, and
grouping parentheses — and rejects every other metacharacter with a parse
error, exactly as an invalid pattern aborts the Mongo query, so no theorem
silently reads an unmodelled metacharacter as a literal. -/

/-- A compiled regex token: a literal character or the `.` wildcard. -/
inductive RTok
  | lit (c : Char)
  | dot
deriving DecidableEq, Repr

/-- Regex metacharacters outside the modelled fragment. -/
def regexMeta (c : Char) : Bool :=
  c == '*' || c == '+' || c == '?' || c == '[' || c == ']' ||
  c == '\x7b' || c == '\x7d' || c == '|' || c == '^' || c == '$' || c == '\\'

/-- Compile a pattern (at group depth `d`) to a token sequence.  Grouping
parentheses are transparent in the quantifier-free fragment, but an unbalanced
parenthesis is a compile error, as it is for a real regex engine. -/
def parseRegex : List Char → Nat → Except String (List RTok)
  | [], d => if d == 0 then .ok [] else .error "unterminated group"
  | c :: cs, d =>
    if c == '(' then parseRegex cs (d + 1)
    else if c == ')' then
      if d == 0 then .error "unmatched closing parenthesis"
      else parseRegex cs (d - 1)
    else if c == '.' then
      match parseRegex cs d with
      | .ok ts => .ok (RTok.dot :: ts)
      | .error e => .error e
    else if regexMeta c then .error "unsupported metacharacter"
    else
      match parseRegex cs d with
      | .ok ts => .ok (RTok.lit c :: ts)
      | .error e => .error e

/-- Case-insensitive character comparison (the `i` option; ASCII fold). -/
def charEqCI (a b : Char) : Bool := a.toLower == b.toLower

/-- A line terminator, which the `.` wildcard does not match. -/
def lineTerm (c : Char) : Bool :=
  c == '\n' || c == '\r' || c == '\u2028' || c == '\u2029'

/-- Whether one token matches one character. -/
def tokMatch : RTok → Char → Bool
  | .lit c, x => charEqCI c x
  | .dot, x => !lineTerm x

/-- Whether the token sequence matches a prefix of the string. -/
def matchHere : List RTok → List Char → Bool
  | [], _ => true
  | _ :: _, [] => false
  | t :: ts, c :: cs => tokMatch t c && matchHere ts cs

/-- Unanchored regex search: the token sequence matches at some position. -/
def matchAnywhere (ts : List RTok) : List Char → Bool
  | [] => matchHere ts []
  | c :: cs => matchHere ts (c :: cs) || matchAnywhere ts cs

/-- Case-insensitive prefix test for literal strings. -/
def substrHereCI : List Char → List Char → Bool
  | [], _ => true
  | _ :: _, [] => false
  | p :: ps, c :: cs => charEqCI p c && substrHereCI ps cs

/-- Case-insensitive literal-substring test (the spec's reading of `search`). -/
def substrCI (ps : List Char) : List Char → Bool
  | [] => substrHereCI ps []
  | c :: cs => substrHereCI ps (c :: cs) || substrCI ps cs

/-! ## Requests, responses, Zod payload schemas -/

/-- The register payload. -/
structure RegisterReq where
  name : String
  email : String
  phone : String
  password : String
  confirmPassword : String
deriving DecidableEq, Repr

/-- The primary variant's `registerSchema`: `name` ≥ 2 chars, email format,
`phone` ≥ 6 chars, `password`/`confirmPassword` ≥ 6 chars, and the refinement
`password === confirmPassword`. -/
def registerParseOk (r : RegisterReq) : Bool :=
  2 ≤ r.name.length && emailFmt r.email && 6 ≤ r.phone.length &&
  6 ≤ r.password.length && 6 ≤ r.confirmPassword.length &&
  r.password == r.confirmPassword

/-- The second variant's `registerSchema`: phone must match the 10–15
digits/punctuation regex, `confirmPassword` has no minimum length. -/
def registerParseOkV2 (r : RegisterReq) : Bool :=
  2 ≤ r.name.length && emailFmt r.email && phoneFmt r.phone &&
  6 ≤ r.password.length && r.password == r.confirmPassword

/-- The login payload. -/
structure LoginReq where
  email : String
  password : String
deriving DecidableEq, Repr

/-- `loginSchema` (identical in both variants). -/
def loginParseOk (r : LoginReq) : Bool :=
  emailFmt r.email && 6 ≤ r.password.length

/-- The book-appointment payload. -/
structure ApptReq where
  doctorId : String
  date : String
  time : String
  symptoms : String
  phone : String
deriving DecidableEq, Repr

/-- The primary variant's `appointmentZ`: 24-char doctor id, `YYYY-MM-DD`
date, but only *length* minimums for time (≥ 3), symptoms (≥ 5) and
phone (≥ 6). -/
def appointmentZ (r : ApptReq) : Bool :=
  r.doctorId.length == 24 && dateFmt r.date && 3 ≤ r.time.length &&
  5 ≤ r.symptoms.length && 6 ≤ r.phone.length

/-- The second variant's `appointmentSchema`: 24-char doctor id, `YYYY-MM-DD`
date, `HH:MM` 24-hour time, symptoms ≥ 10 chars, 10–15 char phone regex. -/
def appointmentSchemaV2 (r : ApptReq) : Bool :=
  r.doctorId.length == 24 && dateFmt r.date && timeFmt r.time &&
  10 ≤ r.symptoms.length && phoneFmt r.phone

/-- An auth endpoint outcome: success carries the public user fields echoed by
the handler (never the password) and the token pair; failure carries the HTTP
status and error message. -/
inductive AuthResp
  | ok (userId name email : String) (role : Option String) (access refresh : Jwt)
  | err (status : Nat) (msg : String)
deriving DecidableEq, Repr

/-- HTTP status of an auth outcome (`res.json` without `res.status` is 200). -/
def AuthResp.statusOf : AuthResp → Nat
  | .ok _ _ _ _ _ _ => 200
  | .err s _ => s

/-- The JWT payload carried by an authenticated request (`req.user`). -/
structure Caller where
  id : String
  role : Option String
deriving DecidableEq, Repr

/-! ## Primary-variant handlers -/

/-- `generateTokens` (primary variant): both tokens sign `\x7b id, role \x7d`. -/
def generateTokens (u : UserRec) : Jwt × Jwt :=
  (jwtSign u.id (some u.role) accessSecret, jwtSign u.id (some u.role) refreshSecret)

/-- `POST /api/auth/register` (primary variant): Zod-validate, reject a
duplicate email with `400 Email already registered`, hash the password, create
the user (email lowercased by the schema, role defaulting to `patient`),
return tokens and the public user fields. -/
def register (db : DB) (r : RegisterReq) : AuthResp × DB :=
  if !registerParseOk r then (.err 400 "Validation failed", db)
  else
    match findUserByEmail db r.email with
    | some _ => (.err 400 "Email already registered", db)
    | none =>
      let u : UserRec :=
        { id := toString db.nextId, name := r.name, email := lowerStr r.email,
          phone := r.phone, password := bcryptHash r.password, role := "patient" }
      let ts := generateTokens u
      (.ok u.id u.name u.email none ts.1 ts.2,
       { db with users := db.users ++ [u], nextId := db.nextId + 1 })

/-- `POST /api/auth/login` (primary variant): Zod-validate, look the user up
by email, verify the password; *both* failure causes return the identical
`401 Invalid credentials` response. -/
def login (db : DB) (r : LoginReq) : AuthResp :=
  if !loginParseOk r then .err 400 "Validation failed"
  else
    match findUserByEmail db r.email with
    | none => .err 401 "Invalid credentials"
    | some u =>
      if bcryptCompare r.password u.password then
        let ts := generateTokens u
        .ok u.id u.name u.email (some u.role) ts.1 ts.2
      else .err 401 "Invalid credentials"

/-- A refresh endpoint outcome. -/
inductive RefreshResp
  | ok (access : Jwt)
  | err (status : Nat) (msg : String)
deriving DecidableEq, Repr

/-- `POST /api/auth/refresh` (primary variant): missing token → 400; failed
verification → `403 Invalid refresh token`; otherwise re-sign an access token
from the refresh token's `id` and `role` claims.  No password is consulted. -/
def refreshAccess (tok : Option Jwt) : RefreshResp :=
  match tok with
  | none => .err 400 "No refresh token provided"
  | some t =>
    match jwtVerify t refreshSecret with
    | none => .err 403 "Invalid refresh token"
    | some p => .ok (jwtSign p.1 p.2 accessSecret)

/-- A doctor-listing outcome: the matched records, or an error response when
the query itself fails (caught and mapped to `500 Server error`). -/
inductive DoctorsResp
  | ok (docs : List DoctorRec)
  | err (status : Nat) (msg : String)
deriving DecidableEq, Repr

/-- An absent or empty query parameter is falsy in `if (specialty)` /
`if (search)`, so it adds no filter. -/
def falsyToNone : Option String → Option String
  | none => none
  | some s => if s == "" then none else some s

/-- `GET /api/doctors` (primary variant): optional exact `specialty` filter,
optional case-insensitive `$regex` filter on `name`; an invalid pattern makes
`Doctor.find` throw, which the handler's catch maps to `500 Server error`. -/
def listDoctors (db : DB) (specialty search : Option String) : DoctorsResp :=
  let bySpec :=
    match falsyToNone specialty with
    | none => db.doctors
    | some sp => db.doctors.filter (fun d => d.specialty == sp)
  match falsyToNone search with
  | none => .ok bySpec
  | some pat =>
    match parseRegex pat.toList 0 with
    | .error _ => .err 500 "Server error"
    | .ok ts => .ok (bySpec.filter (fun d => matchAnywhere ts d.name.toList))

/-- The spec's reading of the doctor listing, for refinement comparison
(spec §4.3: "optional filter by exact specialty and case-insensitive
substring name search"): `search` matches by *literal* substring. -/
def listDoctorsSpecModel (db : DB) (specialty search : Option String) : DoctorsResp :=
  let bySpec :=
    match falsyToNone specialty with
    | none => db.doctors
    | some sp => db.doctors.filter (fun d => d.specialty == sp)
  match falsyToNone search with
  | none => .ok bySpec
  | some pat => .ok (bySpec.filter (fun d => substrCI pat.toList d.name.toList))

/-- A book-appointment outcome: the created record as echoed in the response,
or an error. -/
inductive BookResp
  | ok (a : AppointmentRec)
  | err (status : Nat) (msg : String)
deriving DecidableEq, Repr

/-- `POST /api/appointments` (primary variant): Zod-validate, 404 if the
doctor is absent, 404 if the requesting user is absent, then create the
appointment with `status: 'confirmed'`, denormalizing the doctor's name and
specialty and the patient's name, and return the created record.  The stored
`date` is `new Date(date + 'T00:00:00')`. -/
def bookAppointment (db : DB) (caller : Caller) (r : ApptReq) : BookResp × DB :=
  if !appointmentZ r then (.err 400 "Validation failed", db)
  else
    match findDoctorById db r.doctorId with
    | none => (.err 404 "Doctor not found", db)
    | some doc =>
      match findUserById db caller.id with
      | none => (.err 404 "Patient not found", db)
      | some patient =>
        let a : AppointmentRec :=
          { id := toString db.nextId, doctor := doc.id, doctorName := doc.name,
            specialty := doc.specialty, patient := patient.id,
            patientName := patient.name, date := r.date ++ "T00:00:00",
            time := r.time, symptoms := r.symptoms, phone := r.phone,
            status := .confirmed }
        (.ok a, { db with appointments := db.appointments ++ [a],
                          nextId := db.nextId + 1 })

/-- A cancel outcome. -/
inductive CancelResp
  | ok (a : AppointmentRec)
  | err (status : Nat) (msg : String)
deriving DecidableEq, Repr

/-- `PATCH /api/appointments/:id/cancel` (primary variant): 404 if absent;
`403 Not allowed` unless the caller is the owning patient or has the admin
role; otherwise set `status = 'cancelled'` and save (unconditionally, so a
repeated cancel succeeds and the status stays `cancelled`). -/
def cancelAppointment (db : DB) (caller : Caller) (apptId : String) :
    CancelResp × DB :=
  match findApptById db apptId with
  | none => (.err 404 "Appointment not found", db)
  | some appt =>
    if appt.patient != caller.id && caller.role != some "admin" then
      (.err 403 "Not allowed", db)
    else
      let a := { appt with status := ApptStatus.cancelled }
      (.ok a,
       { db with appointments :=
           db.appointments.map (fun x => if x.id == appt.id then a else x) })

/-- The user records echoed by `GET /api/admin/users`: the projection
`.select('-password')` — a record shape with no password field. -/
structure PublicUser where
  id : String
  name : String
  email : String
  phone : String
  role : String
deriving DecidableEq, Repr

/-- The `.select('-password')` projection. -/
def stripPassword (u : UserRec) : PublicUser :=
  ⟨u.id, u.name, u.email, u.phone, u.role⟩

/-- `GET /api/admin/users` (primary variant): all users with role `patient`,
password field stripped.  (The `joinDate` sort-order is display-only and is
not modelled.) -/
def adminListUsers (db : DB) : List PublicUser :=
  (db.users.filter (fun u => u.role == "patient")).map stripPassword

/-- `seedData`'s user half: when the user collection is empty, create the
admin account with the bcrypt hash of `admin123`. -/
def seedUsers (db : DB) : DB :=
  if db.users.length == 0 then
    { db with
      users := [{ id := toString db.nextId, name := "Admin",
                  email := "admin@medicare.com", phone := "9999999999",
                  password := bcryptHash "admin123", role := "admin" }],
      nextId := db.nextId + 1 }
  else db

/-! ## Second-variant handlers -/

/-- `generateTokens` (second variant): the access token signs
`\x7b id, role \x7d` but the refresh token signs `\x7b id \x7d` only — it
carries **no** role claim. -/
def generateTokensV2 (id : String) (role : Option String) : Jwt × Jwt :=
  (jwtSign id role accessSecretV2, jwtSign id none refreshSecretV2)

/-- `POST /api/auth/register` (second variant): duplicate email →
`400 Email already exists`; success echoes id, name, email and role. -/
def registerV2 (db : DB) (r : RegisterReq) : AuthResp × DB :=
  if !registerParseOkV2 r then (.err 400 "Validation failed", db)
  else
    match findUserByEmail db r.email with
    | some _ => (.err 400 "Email already exists", db)
    | none =>
      let u : UserRec :=
        { id := toString db.nextId, name := r.name, email := lowerStr r.email,
          phone := r.phone, password := bcryptHash r.password, role := "patient" }
      let ts := generateTokensV2 u.id (some u.role)
      (.ok u.id u.name u.email (some u.role) ts.1 ts.2,
       { db with users := db.users ++ [u], nextId := db.nextId + 1 })

/-- `POST /api/auth/login` (second variant): the single test
`!user || !(await bcrypt.compare(...))` collapses both failure causes into
one `401 Invalid credentials` response. -/
def loginV2 (db : DB) (r : LoginReq) : AuthResp :=
  if !loginParseOk r then .err 400 "Invalid input"
  else
    match findUserByEmail db r.email with
    | none => .err 401 "Invalid credentials"
    | some u =>
      if bcryptCompare r.password u.password then
        let ts := generateTokensV2 u.id (some u.role)
        .ok u.id u.name u.email (some u.role) ts.1 ts.2
      else .err 401 "Invalid credentials"

/-- `POST /api/auth/refresh` (second variant): missing token → 401; failed
verification → 403; otherwise `generateTokens(\x7b _id: user.id, role:
user.role \x7d)` re-signs an access token from the refresh token's claims —
whose `role` is absent, since `generateTokensV2` never put one in. -/
def refreshAccessV2 (tok : Option Jwt) : RefreshResp :=
  match tok with
  | none => .err 401 "No token"
  | some t =>
    match jwtVerify t refreshSecretV2 with
    | none => .err 403 "Invalid refresh token"
    | some p => .ok ((generateTokensV2 p.1 p.2).1)

/-- `POST /api/appointments` (second variant): Zod-validate, 404 if the doctor
is absent, then `Appointment.create(\x7b ...data, doctor, doctorName,
specialty, patient, patientName \x7d)` — **no `status` key**, so the schema
default `'pending'` applies.  A missing user makes
`(await User.findById(...)).name` throw a TypeError, caught by the route's
catch and returned as a 400. -/
def bookAppointmentV2 (db : DB) (caller : Caller) (r : ApptReq) : BookResp × DB :=
  if !appointmentSchemaV2 r then (.err 400 "Validation failed", db)
  else
    match findDoctorById db r.doctorId with
    | none => (.err 404 "Doctor not found", db)
    | some doc =>
      match findUserById db caller.id with
      | none => (.err 400 "Cannot read properties of null", db)
      | some patient =>
        let a : AppointmentRec :=
          { id := toString db.nextId, doctor := doc.id, doctorName := doc.name,
            specialty := doc.specialty, patient := caller.id,
            patientName := patient.name, date := r.date,
            time := r.time, symptoms := r.symptoms, phone := r.phone,
            status := .pending }
        (.ok a, { db with appointments := db.appointments ++ [a],
                          nextId := db.nextId + 1 })

/-! ## Concrete fixtures used by counterexamples and witnesses -/

/-- A 24-character doctor id (passing the `z.string().length(24)` check). -/
def docId24 : String := "aaaaaaaaaaaaaaaaaaaaaaaa"

/-- A doctor whose name contains no literal dot. -/
def drBob : DoctorRec :=
  ⟨docId24, "Bob", "Cardiology", "Downtown", "Mon-Fri", "$100", "img"⟩

/-- A seeded-style second doctor. -/
def drChen : DoctorRec :=
  ⟨"bbbbbbbbbbbbbbbbbbbbbbbb", "Dr. Michael Chen", "Dermatology",
   "Skin Care Clinic", "Mon-Sat", "$80", "img2"⟩

/-- A registered patient (password `secret1`, stored hashed). -/
def patAlice : UserRec :=
  ⟨"u1", "Alice", "a@x.com", "1234567890", bcryptHash "secret1", "patient"⟩

/-- A second registered patient. -/
def patCarol : UserRec :=
  ⟨"u2", "Carol", "c@x.com", "1234567891", bcryptHash "secret2", "patient"⟩

/-- The seeded admin account. -/
def adminUser : UserRec :=
  ⟨"u0", "Admin", "admin@medicare.com", "9999999999", bcryptHash "admin123", "admin"⟩

/-- An appointment owned by Alice with doctor Bob. -/
def apptA : AppointmentRec :=
  ⟨"ap1", docId24, "Bob", "Cardiology", "u1", "Alice", "2025-06-01T00:00:00",
   "09:30", "fever for 3 days", "9999999999", .confirmed⟩

/-- A sample database state. -/
def baseDb : DB :=
  ⟨[patAlice, patCarol, adminUser], [drBob, drChen], [apptA], 7⟩

/-! ## Helper lemmas -/

/-- The bcrypt encoding is never the identity: a stored hash is provably
distinct from the plaintext it encodes. -/
theorem bcryptHash_ne_plaintext (p : String) : bcryptHash p ≠ p := by
  intro h
  have hl := congrArg String.length h
  rw [bcryptHash, String.length_append] at hl
  have h7 : ("$2b$10$" : String).length = 7 := by decide
  omega

/-- If some user in the collection carries the email, `findOne` succeeds. -/
theorem findUserByEmail_of_mem (db : DB) (e : String)
    (h : ∃ u ∈ db.users, u.email = e) :
    ∃ v, findUserByEmail db e = some v := by
  rw [← Option.isSome_iff_exists, findUserByEmail, List.find?_isSome]
  obtain ⟨u, hmem, he⟩ := h
  exact ⟨u, hmem, by simp [he]⟩

/-- After replacing (by id) the record that `find?` located, `find?` locates
the replacement, provided the replacement keeps the id. -/
theorem find?_update_id (l : List AppointmentRec) (i : String)
    (appt a : AppointmentRec)
    (hfind : l.find? (fun x => x.id == i) = some appt) (hid : a.id = appt.id) :
    (l.map (fun x => if x.id == appt.id then a else x)).find?
      (fun x => x.id == i) = some a := by
  induction l with
  | nil => simp at hfind
  | cons y ys ih =>
    have hpappt : (appt.id == i) = true := by
      have h0 := List.find?_some hfind
      simpa using h0
    by_cases hy : (y.id == i) = true
    · simp only [List.find?_cons, hy] at hfind
      injection hfind with heq
      subst heq
      have ha : (a.id == i) = true := by rw [hid]; exact hy
      simp [List.find?_cons, ha]
    · have hy' : (y.id == i) = false := by simpa using hy
      simp only [List.find?_cons, hy'] at hfind
      have hyne : (y.id == appt.id) = false := by
        rw [beq_eq_false_iff_ne]
        intro hcon
        rw [hcon, hpappt] at hy'
        simp at hy'
      simp only [List.map_cons, hyne, Bool.false_eq_true, if_false,
        List.find?_cons, hy']
      exact ih hfind

/-- A pattern free of every metacharacter compiles to its literal tokens. -/
theorem parseRegex_plain (cs : List Char)
    (h : ∀ c ∈ cs, regexMeta c = false ∧ c ≠ '(' ∧ c ≠ ')' ∧ c ≠ '.') :
    parseRegex cs 0 = .ok (cs.map RTok.lit) := by
  induction cs with
  | nil => rfl
  | cons c cs ih =>
    obtain ⟨hm, hp, hq, hd⟩ := h c (by simp)
    have ih' := ih (fun x hx => h x (by simp [hx]))
    have h1 : (c == '(') = false := by simp [hp]
    have h2 : (c == ')') = false := by simp [hq]
    have h3 : (c == '.') = false := by simp [hd]
    simp [parseRegex, h1, h2, h3, hm, ih']

/-- On literal tokens, anchored regex matching is exactly the
case-insensitive prefix test. -/
theorem matchHere_lits (ps : List Char) : ∀ cs : List Char,
    matchHere (ps.map RTok.lit) cs = substrHereCI ps cs := by
  induction ps with
  | nil => intro cs; cases cs <;> rfl
  | cons p ps ih =>
    intro cs
    cases cs with
    | nil => rfl
    | cons c cs => simp [matchHere, substrHereCI, tokMatch, ih]

/-- On literal tokens, unanchored regex search is exactly the
case-insensitive substring test. -/
theorem matchAnywhere_lits (ps cs : List Char) :
    matchAnywhere (ps.map RTok.lit) cs = substrCI ps cs := by
  induction cs with
  | nil => simp [matchAnywhere, substrCI, matchHere_lits]
  | cons c cs ih => simp [matchAnywhere, substrCI, matchHere_lits, ih]

/-- The `.` wildcard pattern matches any string containing at least one
non-line-terminator character. -/
theorem matchAnywhere_dot (cs : List Char)
    (h : ∃ c ∈ cs, lineTerm c = false) :
    matchAnywhere [RTok.dot] cs = true := by
  induction cs with
  | nil => simp at h
  | cons c cs ih =>
    obtain ⟨x, hx, hlt⟩ := h
    rcases List.mem_cons.mp hx with rfl | hmem
    · simp [matchAnywhere, matchHere, tokMatch, hlt]
    · simp [matchAnywhere, matchHere, tokMatch, ih ⟨x, hmem, hlt⟩]

/-- A non-empty query parameter survives the falsiness check. -/
theorem falsyToNone_some (s : String) (h : s ≠ "") :
    falsyToNone (some s) = some s := by
  simp [falsyToNone, h]

/-- An absent query parameter adds no filter. -/
theorem falsyToNone_none : falsyToNone none = none := rfl

/-! ## Claims -/

/-- C1 (amended): registering with an email that already belongs to an
existing user is rejected — with HTTP **400** (`Email already registered` in
the primary variant, `Email already exists` in the second), not the 409 the
claim states — and no second user with that email is ever created: the
database is returned unchanged by both variants. -/
theorem c1_register_duplicate_email_rejected
    (db : DB) (r : RegisterReq)
    (hdup : ∃ u ∈ db.users, u.email = r.email) :
    (registerParseOk r = true →
      register db r = (.err 400 "Email already registered", db))
    ∧ (registerParseOkV2 r = true →
      registerV2 db r = (.err 400 "Email already exists", db)) := by
  obtain ⟨v, hv⟩ := findUserByEmail_of_mem db r.email hdup
  constructor <;> intro hok <;> simp [register, registerV2, hok, hv]

/-- C1 counterexample: at a concrete state where `a@x.com` is already
registered, duplicate registration yields status 400 in both variants — not
the 409 (ConflictError) the claim asserts. -/
theorem c1_register_duplicate_status_counterexample :
    patAlice ∈ baseDb.users ∧ patAlice.email = "a@x.com"
    ∧ (register baseDb ⟨"Alice2", "a@x.com", "5550001234", "secret9", "secret9"⟩).1
        = .err 400 "Email already registered"
    ∧ ((register baseDb ⟨"Alice2", "a@x.com", "5550001234", "secret9", "secret9"⟩).1).statusOf ≠ 409
    ∧ (registerV2 baseDb ⟨"Alice2", "a@x.com", "5550001234", "secret9", "secret9"⟩).1
        = .err 400 "Email already exists"
    ∧ ((registerV2 baseDb ⟨"Alice2", "a@x.com", "5550001234", "secret9", "secret9"⟩).1).statusOf ≠ 409 := by
  decide

/-- C1 witness: the amended theorem applied at a concrete duplicate request. -/
theorem c1_register_duplicate_email_rejected_witness :
    register baseDb ⟨"Alice2", "a@x.com", "5550001234", "secret9", "secret9"⟩
      = (.err 400 "Email already registered", baseDb) :=
  (c1_register_duplicate_email_rejected baseDb
    ⟨"Alice2", "a@x.com", "5550001234", "secret9", "secret9"⟩
    ⟨patAlice, by decide, by decide⟩).1 (by decide)

/-- C2: a failed login looks the same whether the email was unknown or the
password wrong — in both variants the two failure causes produce the
identical `401 Invalid credentials` response, so they are indistinguishable
from the response. -/
theorem c2_login_failure_indistinguishable
    (db₁ db₂ : DB) (r₁ r₂ : LoginReq)
    (hv₁ : loginParseOk r₁ = true) (hv₂ : loginParseOk r₂ = true)
    (hmiss : findUserByEmail db₁ r₁.email = none)
    (u : UserRec) (hfound : findUserByEmail db₂ r₂.email = some u)
    (hbad : bcryptCompare r₂.password u.password = false) :
    login db₁ r₁ = .err 401 "Invalid credentials"
    ∧ login db₂ r₂ = .err 401 "Invalid credentials"
    ∧ login db₁ r₁ = login db₂ r₂
    ∧ loginV2 db₁ r₁ = .err 401 "Invalid credentials"
    ∧ loginV2 db₂ r₂ = .err 401 "Invalid credentials" := by
  refine ⟨?_, ?_, ?_, ?_, ?_⟩ <;>
    simp [login, loginV2, hv₁, hv₂, hmiss, hfound, hbad]

/-- C2 witness: the theorem applied at a concrete unknown-email request and a
concrete wrong-password request against the sample database. -/
theorem c2_login_failure_indistinguishable_witness :
    login baseDb ⟨"nobody@x.com", "secret99"⟩ = .err 401 "Invalid credentials"
    ∧ login baseDb ⟨"a@x.com", "wrongpass1"⟩ = .err 401 "Invalid credentials" := by
  have h := c2_login_failure_indistinguishable baseDb baseDb
    ⟨"nobody@x.com", "secret99"⟩ ⟨"a@x.com", "wrongpass1"⟩
    (by decide) (by decide) (by decide) patAlice (by decide) (by decide)
  exact ⟨h.1, h.2.1⟩

/-- C9: booking an appointment whose `doctorId` matches no doctor yields
`404 Doctor not found` and leaves the database unchanged — no appointment is
created — in both variants. -/
theorem c9_book_missing_doctor_404
    (db : DB) (caller : Caller) (r : ApptReq)
    (hdoc : findDoctorById db r.doctorId = none) :
    (appointmentZ r = true →
      bookAppointment db caller r = (.err 404 "Doctor not found", db))
    ∧ (appointmentSchemaV2 r = true →
      bookAppointmentV2 db caller r = (.err 404 "Doctor not found", db)) := by
  constructor <;> intro hok <;>
    simp [bookAppointment, bookAppointmentV2, hok, hdoc]

/-- C9 witness: the theorem applied at a concrete request whose 24-character
doctor id is absent from the sample database. -/
theorem c9_book_missing_doctor_404_witness :
    bookAppointment baseDb ⟨"u1", some "patient"⟩
      ⟨"cccccccccccccccccccccccc", "2025-06-01", "09:30", "fever for 3 days", "9999999999"⟩
      = (.err 404 "Doctor not found", baseDb)
    ∧ bookAppointmentV2 baseDb ⟨"u1", some "patient"⟩
      ⟨"cccccccccccccccccccccccc", "2025-06-01", "09:30", "fever for 3 days", "9999999999"⟩
      = (.err 404 "Doctor not found", baseDb) := by
  have h := c9_book_missing_doctor_404 baseDb ⟨"u1", some "patient"⟩
    ⟨"cccccccccccccccccccccccc", "2025-06-01", "09:30", "fever for 3 days", "9999999999"⟩
    (by decide)
  exact ⟨h.1 (by decide), h.2 (by decide)⟩

/-- C3: cancelling an existing appointment: a caller who is neither the
owning patient nor an admin gets `403 Not allowed` and the database is
unchanged; the owning patient or an admin succeeds, the returned and stored
record's status becomes `cancelled`, and a repeated cancellation by the same
authorized caller succeeds again and leaves the status `cancelled` — an
idempotent terminal state. -/
theorem c3_cancel_authorization_idempotent
    (db : DB) (caller : Caller) (apptId : String) (appt : AppointmentRec)
    (hfind : findApptById db apptId = some appt) :
    (appt.patient ≠ caller.id → caller.role ≠ some "admin" →
      cancelAppointment db caller apptId = (.err 403 "Not allowed", db))
    ∧ ((appt.patient = caller.id ∨ caller.role = some "admin") →
      (cancelAppointment db caller apptId).1
          = .ok { appt with status := .cancelled }
      ∧ findApptById (cancelAppointment db caller apptId).2 apptId
          = some { appt with status := .cancelled }
      ∧ (cancelAppointment (cancelAppointment db caller apptId).2 caller apptId).1
          = .ok { appt with status := .cancelled }
      ∧ findApptById
          (cancelAppointment (cancelAppointment db caller apptId).2 caller apptId).2
          apptId
          = some { appt with status := .cancelled }) := by
  constructor
  · intro h1 h2
    have hg : (appt.patient != caller.id && caller.role != some "admin") = true := by
      simp [bne_iff_ne, h1, h2]
    simp [cancelAppointment, hfind, hg]
  · intro hauth
    have hg : (appt.patient != caller.id && caller.role != some "admin") = false := by
      rcases hauth with h | h <;> simp [h]
    have hfind' : db.appointments.find? (fun x => x.id == apptId) = some appt :=
      hfind
    have hstep : ∀ (d : DB) (b : AppointmentRec),
        findApptById d apptId = some b →
        (b.patient != caller.id && caller.role != some "admin") = false →
        cancelAppointment d caller apptId = (.ok { b with status := .cancelled }, { d with appointments := d.appointments.map (fun x => if x.id == b.id then { b with status := .cancelled } else x) }) := by
      intro d b hf hgb
      simp [cancelAppointment, hf, hgb]
    have h1 := hstep db appt hfind hg
    have hupd := find?_update_id db.appointments apptId appt
      { appt with status := .cancelled } hfind' rfl
    have hupd' : findApptById { db with appointments := db.appointments.map (fun x => if x.id == appt.id then { appt with status := ApptStatus.cancelled } else x) } apptId = some { appt with status := ApptStatus.cancelled } := hupd
    have h2 := hstep
      { db with appointments := db.appointments.map (fun x => if x.id == appt.id then { appt with status := ApptStatus.cancelled } else x) }
      { appt with status := ApptStatus.cancelled } hupd' hg
    have hupd2 := find?_update_id (db.appointments.map (fun x => if x.id == appt.id then { appt with status := ApptStatus.cancelled } else x)) apptId { appt with status := ApptStatus.cancelled } { appt with status := ApptStatus.cancelled } hupd rfl
    refine ⟨?_, ?_, ?_, ?_⟩
    · rw [h1]
    · rw [h1]
      exact hupd'
    · rw [h1]
      rw [h2]
    · rw [h1]
      rw [h2]
      exact hupd2

/-- C3 witness: the theorem applied at the sample state — Carol (not the
owner, not admin) is refused and the state is unchanged; owner Alice
succeeds and the returned record is cancelled. -/
theorem c3_cancel_authorization_idempotent_witness :
    cancelAppointment baseDb ⟨"u2", some "patient"⟩ "ap1"
      = (.err 403 "Not allowed", baseDb)
    ∧ (cancelAppointment baseDb ⟨"u1", some "patient"⟩ "ap1").1
      = .ok { apptA with status := .cancelled } := by
  have h1 := c3_cancel_authorization_idempotent baseDb ⟨"u2", some "patient"⟩
    "ap1" apptA (by decide)
  have h2 := c3_cancel_authorization_idempotent baseDb ⟨"u1", some "patient"⟩
    "ap1" apptA (by decide)
  exact ⟨h1.1 (by decide) (by decide), (h2.2 (Or.inl (by decide))).1⟩

/-- C4 (amended): a successful booking by an authenticated user referencing
an existing doctor and existing user creates and returns an appointment whose
denormalized `doctorName`, `specialty` and `patientName` equal the referenced
doctor's name and specialty and the requesting user's name at creation time,
in both variants; the created record's status is `confirmed` in the primary
variant, but the second variant omits `status` at creation, so the schema
default `pending` applies there. -/
theorem c4_book_denormalizes
    (db : DB) (caller : Caller) (r : ApptReq) (doc : DoctorRec) (pat : UserRec)
    (hdoc : findDoctorById db r.doctorId = some doc)
    (hpat : findUserById db caller.id = some pat) :
    (appointmentZ r = true →
      ∃ a, bookAppointment db caller r
          = (.ok a, { db with appointments := db.appointments ++ [a],
                              nextId := db.nextId + 1 })
        ∧ a.status = .confirmed ∧ a.doctorName = doc.name
        ∧ a.specialty = doc.specialty ∧ a.patientName = pat.name)
    ∧ (appointmentSchemaV2 r = true →
      ∃ a, bookAppointmentV2 db caller r
          = (.ok a, { db with appointments := db.appointments ++ [a],
                              nextId := db.nextId + 1 })
        ∧ a.status = .pending ∧ a.doctorName = doc.name
        ∧ a.specialty = doc.specialty ∧ a.patientName = pat.name) := by
  constructor
  · intro hok
    refine ⟨{ id := toString db.nextId, doctor := doc.id, doctorName := doc.name, specialty := doc.specialty, patient := pat.id, patientName := pat.name, date := r.date ++ "T00:00:00", time := r.time, symptoms := r.symptoms, phone := r.phone, status := .confirmed }, ?_, rfl, rfl, rfl, rfl⟩
    simp [bookAppointment, hok, hdoc, hpat]
  · intro hok
    refine ⟨{ id := toString db.nextId, doctor := doc.id, doctorName := doc.name, specialty := doc.specialty, patient := caller.id, patientName := pat.name, date := r.date, time := r.time, symptoms := r.symptoms, phone := r.phone, status := .pending }, ?_, rfl, rfl, rfl, rfl⟩
    simp [bookAppointmentV2, hok, hdoc, hpat]

/-- C4 counterexample: in the second variant, a fully valid booking against
the sample state creates a record whose status is `pending`, not the
`confirmed` the claim asserts. -/
theorem c4_v2_status_pending_counterexample :
    (bookAppointmentV2 baseDb ⟨"u1", some "patient"⟩
        ⟨docId24, "2025-06-01", "09:30", "fever for 3 days", "9999999999"⟩).1
      = .ok ⟨"7", docId24, "Bob", "Cardiology", "u1", "Alice", "2025-06-01",
             "09:30", "fever for 3 days", "9999999999", .pending⟩
    ∧ ApptStatus.pending ≠ ApptStatus.confirmed := by
  decide

/-- C4 witness: the amended theorem applied at a concrete valid booking in
the primary variant. -/
theorem c4_book_denormalizes_witness :
    ∃ a, bookAppointment baseDb ⟨"u1", some "patient"⟩
          ⟨docId24, "2025-06-01", "09:30", "fever for 3 days", "9999999999"⟩
        = (.ok a, { baseDb with appointments := baseDb.appointments ++ [a],
                                nextId := baseDb.nextId + 1 })
      ∧ a.status = .confirmed ∧ a.doctorName = drBob.name
      ∧ a.specialty = drBob.specialty ∧ a.patientName = patAlice.name :=
  (c4_book_denormalizes baseDb ⟨"u1", some "patient"⟩
    ⟨docId24, "2025-06-01", "09:30", "fever for 3 days", "9999999999"⟩
    drBob patAlice (by decide) (by decide)).1 (by decide)

/-- C5 (amended): in both variants the payload is checked against the
declarative Zod schema before any persistence access — a failing payload is
rejected with a 400 validation error and the database is untouched — and a
date not matching `YYYY-MM-DD` is rejected by both schemas; but only the
second variant's schema enforces the `HH:MM` 24-hour time format and the
10–15 character digits/punctuation phone format: the primary variant's
`appointmentZ` checks only minimum lengths for time and phone. -/
theorem c5_validation_before_persistence
    (db : DB) (caller : Caller) (r : ApptReq) :
    (appointmentZ r = false →
      bookAppointment db caller r = (.err 400 "Validation failed", db))
    ∧ (dateFmt r.date = false →
      bookAppointment db caller r = (.err 400 "Validation failed", db))
    ∧ (appointmentSchemaV2 r = false →
      bookAppointmentV2 db caller r = (.err 400 "Validation failed", db))
    ∧ (dateFmt r.date = false ∨ timeFmt r.time = false ∨ phoneFmt r.phone = false →
      bookAppointmentV2 db caller r = (.err 400 "Validation failed", db)) := by
  refine ⟨?_, ?_, ?_, ?_⟩
  · intro h; simp [bookAppointment, h]
  · intro h
    have hz : appointmentZ r = false := by simp [appointmentZ, h]
    simp [bookAppointment, hz]
  · intro h; simp [bookAppointmentV2, h]
  · intro h
    have hz : appointmentSchemaV2 r = false := by
      rcases h with h | h | h <;> simp [appointmentSchemaV2, h]
    simp [bookAppointmentV2, hz]

/-- C5 counterexample: the primary variant accepts a payload whose time is
not `HH:MM` and whose phone is not 10–15 characters — `appointmentZ` passes
it, the booking succeeds, and a write occurs, where the claim demands a
ValidationError and no write. -/
theorem c5_v1_format_not_enforced_counterexample :
    timeFmt "morning" = false
    ∧ phoneFmt "1234567" = false
    ∧ appointmentZ ⟨docId24, "2025-06-01", "morning", "headache now", "1234567"⟩ = true
    ∧ (bookAppointment baseDb ⟨"u1", some "patient"⟩
        ⟨docId24, "2025-06-01", "morning", "headache now", "1234567"⟩).1
      = .ok ⟨"7", docId24, "Bob", "Cardiology", "u1", "Alice",
             "2025-06-01T00:00:00", "morning", "headache now", "1234567", .confirmed⟩
    ∧ (bookAppointment baseDb ⟨"u1", some "patient"⟩
        ⟨docId24, "2025-06-01", "morning", "headache now", "1234567"⟩).2 ≠ baseDb := by
  decide

/-- C5 witness: the amended theorem applied at a malformed-date payload
(primary variant) and a malformed-time payload (second variant). -/
theorem c5_validation_before_persistence_witness :
    bookAppointment baseDb ⟨"u1", some "patient"⟩
      ⟨docId24, "junkdate", "09:30", "fever for 3 days", "9999999999"⟩
      = (.err 400 "Validation failed", baseDb)
    ∧ bookAppointmentV2 baseDb ⟨"u1", some "patient"⟩
      ⟨docId24, "2025-06-01", "25:99", "fever for 3 days", "9999999999"⟩
      = (.err 400 "Validation failed", baseDb) := by
  have h1 := c5_validation_before_persistence baseDb ⟨"u1", some "patient"⟩
    ⟨docId24, "junkdate", "09:30", "fever for 3 days", "9999999999"⟩
  have h2 := c5_validation_before_persistence baseDb ⟨"u1", some "patient"⟩
    ⟨docId24, "2025-06-01", "25:99", "fever for 3 days", "9999999999"⟩
  exact ⟨h1.2.1 (by decide), h2.2.2.2 (Or.inr (Or.inl (by decide)))⟩

/-- C6 (amended): a refresh token that verifies under the refresh secret
yields a new access token re-signed from the refresh token's own claims,
without consulting any password; one that fails verification yields
`403 Invalid refresh token`.  In the primary variant the refresh token
carries both `id` and `role`, so the refreshed access token's subject and
role match the original holder's; in the second variant `generateTokens`
signs the refresh token with the id only, so the refreshed access token
carries **no** role claim — the holder's role is lost. -/
theorem c6_refresh_token_claims
    (t : Jwt) (u : UserRec) (id : String) (role : Option String) :
    (t.secret = refreshSecret →
      refreshAccess (some t) = .ok (jwtSign t.sub t.role accessSecret))
    ∧ (t.secret ≠ refreshSecret →
      refreshAccess (some t) = .err 403 "Invalid refresh token")
    ∧ refreshAccess (some (generateTokens u).2)
        = .ok (jwtSign u.id (some u.role) accessSecret)
    ∧ (generateTokensV2 id role).2.role = none
    ∧ refreshAccessV2 (some (generateTokensV2 id role).2)
        = .ok (jwtSign id none accessSecretV2)
    ∧ (t.secret ≠ refreshSecretV2 →
      refreshAccessV2 (some t) = .err 403 "Invalid refresh token") := by
  refine ⟨?_, ?_, ?_, rfl, ?_, ?_⟩
  · intro h; simp [refreshAccess, jwtVerify, h]
  · intro h; simp [refreshAccess, jwtVerify, h]
  · simp [refreshAccess, generateTokens, jwtVerify, jwtSign]
  · simp [refreshAccessV2, generateTokensV2, jwtVerify, jwtSign]
  · intro h; simp [refreshAccessV2, jwtVerify, h]

/-- C6 counterexample: in the second variant, the admin's refresh token
carries no role claim, so the refreshed access token's role claim is `none` —
it does not match the original holder's `admin` role. -/
theorem c6_v2_refresh_loses_role_counterexample :
    adminUser.role = "admin"
    ∧ (generateTokensV2 adminUser.id (some adminUser.role)).2.role = none
    ∧ refreshAccessV2 (some (generateTokensV2 adminUser.id (some adminUser.role)).2)
        = .ok ⟨"u0", none, accessSecretV2⟩
    ∧ (none : Option String) ≠ some adminUser.role := by
  decide

/-- C6 witness: the amended theorem applied at a concrete valid refresh token
and at a concrete token signed with the wrong secret. -/
theorem c6_refresh_token_claims_witness :
    refreshAccess (some (jwtSign "u1" (some "patient") refreshSecret))
      = .ok (jwtSign "u1" (some "patient") accessSecret)
    ∧ refreshAccess (some (jwtSign "u1" (some "patient") "badsecret"))
      = .err 403 "Invalid refresh token" := by
  have h1 := c6_refresh_token_claims (jwtSign "u1" (some "patient") refreshSecret)
    patAlice "u1" (some "patient")
  have h2 := c6_refresh_token_claims (jwtSign "u1" (some "patient") "badsecret")
    patAlice "u1" (some "patient")
  exact ⟨h1.1 rfl, h2.2.1 (by decide)⟩

/-- C7: passwords are never stored or returned in plaintext: the bcrypt
encoding differs from every plaintext; any user added by a registration
stores exactly the bcrypt hash of the submitted password, never the
plaintext; seeding stores the bcrypt hash of the admin password; and every
record returned by the admin user listing is the password-stripped
projection of a stored user — the response shape `PublicUser` has no
password field, just as the success constructors of `AuthResp` carry only
id, name, email and role. -/
theorem c7_password_never_plaintext
    (db : DB) (r : RegisterReq) (p : String) :
    bcryptHash p ≠ p
    ∧ (∀ u ∈ (register db r).2.users, u ∈ db.users ∨
        (u.password = bcryptHash r.password ∧ u.password ≠ r.password))
    ∧ (∀ u ∈ (seedUsers db).users, u ∈ db.users ∨
        (u.password = bcryptHash "admin123" ∧ u.password ≠ "admin123"))
    ∧ (∀ pu ∈ adminListUsers db, ∃ u ∈ db.users,
        u.role = "patient" ∧ pu = stripPassword u) := by
  refine ⟨bcryptHash_ne_plaintext p, ?_, ?_, ?_⟩
  · intro u hu
    by_cases hok : registerParseOk r = true
    · rcases hfind : findUserByEmail db r.email with _ | v
      · simp only [register, hok, Bool.not_true, Bool.false_eq_true, if_false,
          hfind] at hu
        simp only [List.mem_append, List.mem_singleton] at hu
        rcases hu with hu | hu
        · exact Or.inl hu
        · subst hu
          exact Or.inr ⟨rfl, bcryptHash_ne_plaintext r.password⟩
      · simp only [register, hok, Bool.not_true, Bool.false_eq_true, if_false,
          hfind] at hu
        exact Or.inl hu
    · have hok' : registerParseOk r = false := by simpa using hok
      simp only [register, hok', Bool.not_false, if_true] at hu
      exact Or.inl hu
  · intro u hu
    by_cases hz : (db.users.length == 0) = true
    · simp only [seedUsers, hz, if_true, List.mem_singleton] at hu
      subst hu
      exact Or.inr ⟨rfl, bcryptHash_ne_plaintext "admin123"⟩
    · have hz' : (db.users.length == 0) = false := by simpa using hz
      simp only [seedUsers, hz', Bool.false_eq_true, if_false] at hu
      exact Or.inl hu
  · intro pu hpu
    simp only [adminListUsers, List.mem_map, List.mem_filter] at hpu
    obtain ⟨u, ⟨hmem, hrole⟩, hstrip⟩ := hpu
    exact ⟨u, hmem, by simpa using hrole, hstrip.symm⟩

/-- C7 witness: the theorem applied at a concrete registration — the user it
adds is not a pre-existing one, so its stored password is the bcrypt hash of
the submitted password and differs from the plaintext. -/
theorem c7_password_never_plaintext_witness :
    (⟨"7", "Dave", "d@x.com", "5550001234", bcryptHash "hunter2", "patient"⟩ : UserRec)
        ∈ baseDb.users
    ∨ ((⟨"7", "Dave", "d@x.com", "5550001234", bcryptHash "hunter2", "patient"⟩ : UserRec).password
          = bcryptHash "hunter2"
        ∧ (⟨"7", "Dave", "d@x.com", "5550001234", bcryptHash "hunter2", "patient"⟩ : UserRec).password
          ≠ "hunter2") :=
  (c7_password_never_plaintext baseDb
    ⟨"Dave", "d@x.com", "5550001234", "hunter2", "hunter2"⟩ "hunter2").2.1
    ⟨"7", "Dave", "d@x.com", "5550001234", bcryptHash "hunter2", "patient"⟩
    (by decide)

/-- C8 (amended): with no parameters the doctor listing returns all doctors
with no pagination; a `specialty` parameter returns exactly the stored
doctors whose specialty equals the parameter (a doctor is listed iff it is
in the collection and its specialty is the parameter); but the `search`
parameter is interpreted as a case-insensitive *regular expression* over the
name, not a literal substring — a doctor is listed iff its name matches the
compiled pattern somewhere — and the two semantics coincide exactly when the
search string is free of regex metacharacters. -/
theorem c8_list_doctors_filters
    (db : DB) (sp pat : String) (ts : List RTok) (d : DoctorRec)
    (hsp : sp ≠ "") (hpat : pat ≠ "")
    (hparse : parseRegex pat.toList 0 = .ok ts) :
    listDoctors db none none = .ok db.doctors
    ∧ (listDoctors db (some sp) none
        = .ok (db.doctors.filter (fun x => x.specialty == sp))
       ∧ (d ∈ db.doctors.filter (fun x => x.specialty == sp)
            ↔ d ∈ db.doctors ∧ d.specialty = sp))
    ∧ (listDoctors db none (some pat)
        = .ok (db.doctors.filter (fun x => matchAnywhere ts x.name.toList))
       ∧ (d ∈ db.doctors.filter (fun x => matchAnywhere ts x.name.toList)
            ↔ d ∈ db.doctors ∧ matchAnywhere ts d.name.toList = true))
    ∧ ((∀ c ∈ pat.toList, regexMeta c = false ∧ c ≠ '(' ∧ c ≠ ')' ∧ c ≠ '.') →
        listDoctors db none (some pat) = listDoctorsSpecModel db none (some pat)) := by
  refine ⟨rfl, ⟨?_, ?_⟩, ⟨?_, ?_⟩, ?_⟩
  · simp [listDoctors, falsyToNone_none, falsyToNone_some sp hsp]
  · simp [List.mem_filter]
  · have hparse' : parseRegex pat.data 0 = Except.ok ts := hparse
    simp [listDoctors, falsyToNone_none, falsyToNone_some pat hpat, hparse']
  · simp [List.mem_filter]
  · intro hplain
    have hp : parseRegex pat.data 0 = Except.ok (List.map RTok.lit pat.data) :=
      parseRegex_plain pat.toList hplain
    simp [listDoctors, listDoctorsSpecModel, falsyToNone_none,
      falsyToNone_some pat hpat, hp, matchAnywhere_lits]

/-- C8 counterexample: searching for `.` returns the doctor `Bob`, whose
name contains no literal dot — the regex interpretation differs from the
spec's literal case-insensitive substring matching at this concrete input. -/
theorem c8_search_dot_counterexample :
    listDoctors baseDb none (some ".") = .ok [drBob, drChen]
    ∧ listDoctorsSpecModel baseDb none (some ".") = .ok [drChen]
    ∧ listDoctors baseDb none (some ".")
        ≠ listDoctorsSpecModel baseDb none (some ".")
    ∧ substrCI ".".toList drBob.name.toList = false := by
  decide

/-- C8 witness: the amended theorem applied at a concrete specialty filter
(the stored cardiologist is listed exactly because his specialty matches),
and at a concrete metacharacter-free search where the regex and substring
semantics coincide. -/
theorem c8_list_doctors_filters_witness :
    listDoctors baseDb (some "Cardiology") none
      = .ok (baseDb.doctors.filter (fun x => x.specialty == "Cardiology"))
    ∧ (drBob ∈ baseDb.doctors.filter (fun x => x.specialty == "Cardiology")
        ↔ drBob ∈ baseDb.doctors ∧ drBob.specialty = "Cardiology")
    ∧ listDoctors baseDb none (some "chen")
      = listDoctorsSpecModel baseDb none (some "chen") := by
  have h := c8_list_doctors_filters baseDb "Cardiology" "chen"
    [RTok.lit 'c', RTok.lit 'h', RTok.lit 'e', RTok.lit 'n'] drBob
    (by decide) (by decide) rfl
  exact ⟨h.2.1.1, h.2.1.2, h.2.2.2 (by decide)⟩

/-- C10: the doctor-name search is a regular-expression match, not a literal
substring test: the pattern `.` produces a different result from
case-insensitive literal substring matching on the sample state; `.` matches
every doctor name containing at least one non-line-terminator character (in
particular every non-empty plain-text name); and the unbalanced pattern `(`
is a regex compile error that makes the query fail with a 500 response
instead of matching nothing. -/
theorem c10_search_regex_semantics :
    listDoctors baseDb none (some ".")
        ≠ listDoctorsSpecModel baseDb none (some ".")
    ∧ (∀ cs : List Char, (∃ c ∈ cs, lineTerm c = false) →
        matchAnywhere [RTok.dot] cs = true)
    ∧ parseRegex "(".toList 0 = .error "unterminated group"
    ∧ (∀ db : DB, listDoctors db none (some "(") = .err 500 "Server error") := by
  refine ⟨by decide, matchAnywhere_dot, rfl, ?_⟩
  intro db
  have h1 := falsyToNone_some "(" (by decide)
  have h2 : parseRegex ['('] 0 = .error "unterminated group" := rfl
  simp [listDoctors, falsyToNone_none, h1, h2]

/-- C10 witness: the theorem applied at the concrete name `Bob` and at the
sample database. -/
theorem c10_search_regex_semantics_witness :
    matchAnywhere [RTok.dot] "Bob".toList = true
    ∧ listDoctors baseDb none (some "(") = .err 500 "Server error" := by
  have h := c10_search_regex_semantics
  exact ⟨h.2.1 "Bob".toList ⟨'B', by decide, by decide⟩, h.2.2.2 baseDb⟩

end MediCare
